import Mathlib

/-!
Shallow embedding of `src/inference-server/server.py` (sky-eye vision inference
server) and verification of its specification claims.

Conventions of the embedding:
* Python strings are modelled as `List Char` where character-level operations
  (`split`, `in`) matter, and as `String` for JSON keys.
* Floats only occur as the resize ratio `640 / max(w, h)` and as model output
  scores; they are modelled as exact rationals (`ℚ`).  `int(x)` applied to a
  nonnegative float is modelled as the rational floor, i.e. natural division.
* The module-level globals (`MODEL_AVAILABLE`, `model`) and the external
  collaborators (base64 decoding, PIL image parsing, YOLO inference) are
  passed explicitly in a context record `Ctx`; each external call is a
  function returning `Except String _`, an `.error` standing for a raised
  exception.
* A Python function whose body catches every exception is embedded as a total
  function; a raised-and-uncaught exception is an `.error` value that the
  Flask handler's `try/except` turns into a 500 response.
-/

namespace SkyEye

/-- One detection dict built by `detect_objects` (server.py lines 71-76):
`class`, `confidence`, `bbox` (xyxy), `bbox_normalized` (xywhn). -/
structure Detection where
  class_name : String
  confidence : ℚ
  bbox : List ℚ
  bbox_normalized : List ℚ
deriving DecidableEq

/-- JSON values used in request/response bodies.  Detections lists get their
own constructor so the type stays non-nested and derivably decidable. -/
inductive JVal where
  | null : JVal
  | jbool : Bool → JVal
  | jnum : Int → JVal
  | jstr : String → JVal
  | jdets : List Detection → JVal
deriving DecidableEq

/-- An HTTP response: status code plus JSON-object body (ordered fields). -/
structure Response where
  status : Nat
  body : List (String × JVal)
deriving DecidableEq

/-- A decoded raster image; only its dimensions matter to the server shell
(`image.size` in PIL order is `(width, height)`). -/
structure Image where
  width : Nat
  height : Nat
deriving DecidableEq

/-- The loaded model handle (`model = YOLO('yolov8n.pt')`); opaque. -/
structure YOLO where
  weights : String
deriving DecidableEq

/-- One box of a YOLO result: class id (`box.cls[0]`), confidence
(`box.conf[0]`), `box.xyxy[0]`, `box.xywhn[0]`. -/
structure Box where
  cls : Nat
  conf : ℚ
  xyxy : List ℚ
  xywhn : List ℚ

/-- One element of `model(image, ...)`: a class-name table and boxes. -/
structure YoloResult where
  names : Nat → String
  boxes : List Box

/-- Global state and external collaborators of the server process.
`MODEL_AVAILABLE` / `model` are the module globals; `run` is the YOLO
inference call (arguments: model, image, conf, iou); `b64decode` is
`base64.b64decode`; `imageOpen` is `Image.open(io.BytesIO(..))`.  An
`.error` result models a raised exception. -/
structure Ctx where
  MODEL_AVAILABLE : Bool
  model : Option YOLO
  run : YOLO → Image → ℚ → ℚ → Except String (List YoloResult)
  b64decode : List Char → Except String (List Nat)
  imageOpen : List Nat → Except String Image

/-! ### Image Decoder (server.py lines 41-54) -/

/-- Python's `s.split(',')` on a character list: splits at every comma,
keeping empty segments, so the result always has one more element than the
number of commas. -/
def split_comma : List Char → List (List Char)
  | [] => [[]]
  | c :: cs =>
    if c = ',' then [] :: split_comma cs
    else
      match split_comma cs with
      | [] => [[c]]
      | r :: rs => (c :: r) :: rs

/-- The string actually handed to `base64.b64decode` by `decode_image`:
`image_data.split(',')[1]` when a comma is present, else the whole string
(server.py lines 45-46).  The index access is total here because a comma
guarantees at least two segments. -/
def selected_payload (image_data : List Char) : List Char :=
  if ',' ∈ image_data then (split_comma image_data).getD 1 [] else image_data

/-- `decode_image` (server.py lines 41-54): select the payload, base64-decode
it, parse the bytes as an image; any exception is caught and `None` (here
`none`) returned. -/
def decode_image (ctx : Ctx) (image_data : List Char) : Option Image :=
  match ctx.b64decode (selected_payload image_data) with
  | .error _ => none
  | .ok image_bytes =>
    match ctx.imageOpen image_bytes with
    | .error _ => none
    | .ok image => some image

/-! Helper lemmas about `split_comma`. -/

theorem split_comma_ne_nil (s : List Char) : split_comma s ≠ [] := by
  cases s with
  | nil => simp [split_comma]
  | cons c cs =>
    by_cases hc : c = ','
    · simp [split_comma, hc]
    · simp only [split_comma, if_neg hc]
      cases split_comma cs <;> simp

theorem split_comma_head (s : List Char) :
    (split_comma s).head? = some (s.takeWhile (fun c => !(c == ','))) := by
  induction s with
  | nil => simp [split_comma]
  | cons c cs ih =>
    by_cases hc : c = ','
    · simp [split_comma, hc, List.takeWhile]
    · have hcb : (c == ',') = false := beq_eq_false_iff_ne.mpr hc
      simp only [split_comma, if_neg hc]
      rcases hsc : split_comma cs with _ | ⟨r, rs⟩
      · exact absurd hsc (split_comma_ne_nil cs)
      · rw [hsc] at ih
        simp only [List.head?] at ih
        simp only [List.takeWhile, hcb, Bool.not_false, List.head?, Option.some.injEq] at ih ⊢
        simp [ih]

theorem split_comma_getD_one (s : List Char) (h : ',' ∈ s) :
    (split_comma s).getD 1 [] =
      ((s.dropWhile (fun c => !(c == ','))).drop 1).takeWhile (fun c => !(c == ',')) := by
  induction s with
  | nil => cases h
  | cons c cs ih =>
    by_cases hc : c = ','
    · subst hc
      simp only [split_comma, if_pos rfl, List.dropWhile]
      have hhead := split_comma_head cs
      rcases hsc : split_comma cs with _ | ⟨r, rs⟩
      · exact absurd hsc (split_comma_ne_nil cs)
      · rw [hsc] at hhead
        simp only [List.head?, Option.some.injEq] at hhead
        simp [hhead]
    · have hmem : ',' ∈ cs := by
        rcases List.mem_cons.mp h with h1 | h1
        · exact absurd h1.symm hc
        · exact h1
      have hcb : (c == ',') = false := beq_eq_false_iff_ne.mpr hc
      simp only [split_comma, if_neg hc]
      rcases hsc : split_comma cs with _ | ⟨r, rs⟩
      · exact absurd hsc (split_comma_ne_nil cs)
      · have hres := ih hmem
        rw [hsc] at hres
        simpa [List.dropWhile, hcb] using hres

/-! ### Resizer (server.py lines 144-148) -/

/-- `max_size = 640` (server.py line 144). -/
def max_size : Nat := 640

/-- The tuple `new_size` computed on server.py line 147:
`int(dim * ratio)` with `ratio = max_size / max(image.size)`.  `int` on a
nonnegative value truncates, i.e. takes the floor of the exact quotient,
which for naturals is natural division. -/
def new_size (w h : Nat) : Nat × Nat :=
  ((w * max_size) / max w h, (h * max_size) / max w h)

/-- The dimensions produced by the whole resize block (server.py lines
145-148): scaled down when the longer side exceeds `max_size`, unchanged
otherwise. -/
def resized_dims (w h : Nat) : Nat × Nat :=
  if max w h > max_size then new_size w h else (w, h)

/-- Model of the external Pillow call `image.resize(new_size, LANCZOS)`:
resampling raises `ValueError` when a requested dimension is zero (Pillow's
resample rejects empty targets), otherwise yields an image of the requested
size.  The `.error` stands for the raised exception. -/
def pil_resize (sz : Nat × Nat) : Except String Image :=
  if sz.1 = 0 ∨ sz.2 = 0 then .error "height and width must be > 0"
  else .ok ⟨sz.1, sz.2⟩

/-! ### Detector Adapter (server.py lines 57-82) -/

/-- `detect_objects` (server.py lines 57-82).  Returns `[]` when
`not MODEL_AVAILABLE or model is None`; otherwise calls the model with the
fixed thresholds `conf=0.25, iou=0.45` and flattens every box of every
result into a detection dict.  The surrounding `try/except` catches any
inference exception and returns `[]`, so the embedding is a total function
into `List Detection`. -/
def detect_objects (ctx : Ctx) (image : Image) : List Detection :=
  match ctx.MODEL_AVAILABLE, ctx.model with
  | true, some m =>
    match ctx.run m image 0.25 0.45 with
    | .error _ => []
    | .ok results =>
      (results.map (fun r => r.boxes.map (fun b =>
        { class_name := r.names b.cls
          confidence := b.conf
          bbox := b.xyxy
          bbox_normalized := b.xywhn : Detection }))).flatten
  | _, _ => []

/-! ### HTTP Endpoint Layer (server.py lines 85-162) -/

/-- `GET /health` (server.py lines 85-91): always a 200 with
`model_loaded = MODEL_AVAILABLE and model is not None`. -/
def health (MODEL_AVAILABLE : Bool) (model : Option YOLO) : Response :=
  ⟨200, [("status", .jstr "healthy"),
         ("model_loaded", .jbool (MODEL_AVAILABLE && model.isSome))]⟩

/-- The module-level startup (server.py lines 16-38): `MODEL_AVAILABLE` is
true only when the ultralytics import succeeded (`importOk`) and the
`YOLO(..)` call (`load`) did not raise; `model` stays `None` unless the load
succeeded. -/
def startup (importOk : Bool) (load : Except String YOLO) : Bool × Option YOLO :=
  match importOk with
  | false => (false, none)
  | true =>
    match load with
    | .ok m => (true, some m)
    | .error _ => (false, none)

/-- A 400/500 error body `{'error': msg}`. -/
def errorResponse (status : Nat) (msg : String) : Response :=
  ⟨status, [("error", .jstr msg)]⟩

/-- `decode_image(data['image'])` for an arbitrary JSON value in the `image`
field.  A non-string value makes `',' in image_data` raise `TypeError`,
which `decode_image`'s own `except` turns into `None`; a string goes through
the decoder. -/
def decode_jval (ctx : Ctx) (v : JVal) : Option Image :=
  match v with
  | .jstr s => decode_image ctx s.toList
  | _ => none

/-- `POST /detect` (server.py lines 94-123).  The request body `request.json`
is `none` for a missing/null body and `some fields` for a JSON object; a
falsy (empty) dict or an absent `image` key yields the 400 of line 101.
Nothing in the body of the `try` can raise in this model (decode and
inference failures are caught inside the callees), so the 500 branch of
line 123 is unreachable for `/detect`. -/
def detect (ctx : Ctx) (data : Option (List (String × JVal))) : Response :=
  match data with
  | none => errorResponse 400 "No image data provided"
  | some l =>
    if l.isEmpty then errorResponse 400 "No image data provided"
    else
      match l.lookup "image" with
      | none => errorResponse 400 "No image data provided"
      | some v =>
        match decode_jval ctx v with
        | none => errorResponse 400 "Failed to decode image"
        | some image =>
          let detections := detect_objects ctx image
          ⟨200, [("success", .jbool true),
                 ("detections", .jdets detections),
                 ("count", .jnum detections.length)]⟩

/-- `POST /detect/stream` (server.py lines 126-162).  Same input checks as
`/detect`; additionally resizes when `max(image.size) > max_size`, where the
`image.resize` call can raise (zero target dimension), in which case the
outer `except` of line 160 produces a 500.  On success the body carries no
`success` field and echoes `data.get('timestamp', None)`. -/
def detect_stream (ctx : Ctx) (data : Option (List (String × JVal))) : Response :=
  match data with
  | none => errorResponse 400 "No image data provided"
  | some l =>
    if l.isEmpty then errorResponse 400 "No image data provided"
    else
      match l.lookup "image" with
      | none => errorResponse 400 "No image data provided"
      | some v =>
        match decode_jval ctx v with
        | none => errorResponse 400 "Failed to decode image"
        | some image =>
          let resized : Except String Image :=
            if max image.width image.height > max_size then
              pil_resize (new_size image.width image.height)
            else .ok image
          match resized with
          | .error e => errorResponse 500 e
          | .ok image2 =>
            let detections := detect_objects ctx image2
            ⟨200, [("detections", .jdets detections),
                   ("count", .jnum detections.length),
                   ("timestamp", (l.lookup "timestamp").getD .null)]⟩

/-! ### Concrete contexts used by witnesses and counterexamples -/

/-- A context whose externals all succeed: base64 decodes to some bytes, the
bytes parse as a 10x20 image, and inference returns no boxes. -/
def okCtx : Ctx where
  MODEL_AVAILABLE := true
  model := some ⟨"yolov8n.pt"⟩
  run := fun _ _ _ _ => .ok []
  b64decode := fun _ => .ok [0]
  imageOpen := fun _ => .ok ⟨10, 20⟩

/-- A context in which the ultralytics import failed: no model. -/
def noModelCtx : Ctx :=
  { okCtx with MODEL_AVAILABLE := false, model := none }

/-- A context whose model raises during inference. -/
def errCtx : Ctx :=
  { okCtx with run := fun _ _ _ _ => .error "inference failed" }

/-- A context whose base64 decoding raises (malformed payload). -/
def badB64Ctx : Ctx :=
  { okCtx with b64decode := fun _ => .error "Invalid base64-encoded string" }

/-- A context decoding every image to an extreme 1x1000 aspect ratio. -/
def thinCtx : Ctx :=
  { okCtx with imageOpen := fun _ => .ok ⟨1, 1000⟩ }




/-! ### Claim C1 -/

/-- C1 counterexample: for the input `"a,b,c"`, which contains two commas,
`decode_image` hands `"b"` (the segment between the first and second commas)
to base64 decoding, not `"b,c"` (everything after the first comma) as the
claim states.  So it is false that for every input string with at least one
comma the decoded bytes are exactly the substring after the first comma. -/
theorem C1_counterexample :
    ',' ∈ ['a', ',', 'b', ',', 'c'] ∧
    selected_payload ['a', ',', 'b', ',', 'c'] = ['b'] ∧
    selected_payload ['a', ',', 'b', ',', 'c'] ≠
      ((['a', ',', 'b', ',', 'c'].dropWhile (fun c => !(c == ','))).drop 1) := by
  decide

/-- C1 (amended): for every input string to the Image Decoder containing at
least one comma, the string decoded as base64 is the segment strictly
between the first comma and the following comma (or the end of the string)
— the second comma-separated segment — and for a string with no comma the
whole string is decoded. -/
theorem C1_payload_selection (s : List Char) :
    selected_payload s =
      if ',' ∈ s then
        ((s.dropWhile (fun c => !(c == ','))).drop 1).takeWhile (fun c => !(c == ','))
      else s := by
  by_cases h : ',' ∈ s
  · rw [selected_payload, if_pos h, if_pos h]
    exact split_comma_getD_one s h
  · rw [selected_payload, if_neg h, if_neg h]

/-! ### Claim C2 -/

/-- C2 counterexample: for a decoded 1281x1000 image the longer side exceeds
640, and the code computes the new height as `int(1000 * (640/1281)) = 499`,
the truncation of 499.609..; rounding to the nearest integer pixel, as the
claim states, would give 500.  So the new dimensions are not rounded to
nearest. -/
theorem C2_counterexample :
    max 1281 1000 > 640 ∧
    resized_dims 1281 1000 = (640, 499) ∧
    (((resized_dims 1281 1000).2 : ℕ) : ℤ) ≠
      round ((1000 : ℚ) * (640 / ((max 1281 1000 : ℕ) : ℚ))) := by
  refine ⟨by decide, by decide, ?_⟩
  have h : ((1000 : ℚ) * (640 / ((max 1281 1000 : ℕ) : ℚ))) = 640000 / 1281 := by
    norm_num
  have hr : round ((640000 : ℚ) / 1281) = 500 := by
    rw [round_eq]
    norm_num
  rw [h, hr]
  decide

/-- C2 (amended): when the longer side exceeds 640 each new dimension is the
truncation (floor) of `dim * (640 / longer_dimension)` — not the nearest
integer — and when the longer side is at most 640 the image dimensions are
unchanged. -/
theorem C2_truncated_scaling (w h : Nat) :
    (640 < max w h →
      resized_dims w h =
        (⌊(w : ℚ) * (640 / ((max w h : ℕ) : ℚ))⌋₊,
         ⌊(h : ℚ) * (640 / ((max w h : ℕ) : ℚ))⌋₊)) ∧
    (max w h ≤ 640 → resized_dims w h = (w, h)) := by
  constructor
  · intro hbig
    rw [resized_dims, if_pos (by simpa [max_size] using hbig)]
    have hw : (w : ℚ) * (640 / ((max w h : ℕ) : ℚ)) =
        ((w * 640 : ℕ) : ℚ) / ((max w h : ℕ) : ℚ) := by push_cast; ring
    have hh : (h : ℚ) * (640 / ((max w h : ℕ) : ℚ)) =
        ((h * 640 : ℕ) : ℚ) / ((max w h : ℕ) : ℚ) := by push_cast; ring
    rw [new_size, max_size, hw, hh, Nat.floor_div_eq_div, Nat.floor_div_eq_div]
  · intro hle
    rw [resized_dims, if_neg (by simpa [max_size] using not_lt.mpr hle)]

/-- C2 witness: the amended theorem evaluated on a 1281x1000 image. -/
theorem C2_witness :
    640 < max 1281 1000 ∧
    resized_dims 1281 1000 =
      (⌊((1281 : ℕ) : ℚ) * (640 / ((max 1281 1000 : ℕ) : ℚ))⌋₊,
       ⌊((1000 : ℕ) : ℚ) * (640 / ((max 1281 1000 : ℕ) : ℚ))⌋₊) :=
  ⟨by decide, (C2_truncated_scaling 1281 1000).1 (by decide)⟩

/-! ### Claim C3 -/

/-- Natural division brackets the exact rational quotient from below within
distance one: `a/m ≤ a/m (exact) < a/m + 1`. -/
theorem nat_div_rat_bounds (a m : Nat) (hm : 0 < m) :
    ((a / m : ℕ) : ℚ) ≤ (a : ℚ) / (m : ℚ) ∧
    (a : ℚ) / (m : ℚ) - 1 < ((a / m : ℕ) : ℚ) := by
  constructor
  · exact_mod_cast Nat.cast_div_le
  · rw [sub_lt_iff_lt_add, div_lt_iff₀ (by exact_mod_cast hm)]
    have h1 : a < (a / m + 1) * m := (Nat.div_lt_iff_lt_mul hm).mp (Nat.lt_succ_self _)
    calc (a : ℚ) < (((a / m + 1) * m : ℕ) : ℚ) := by exact_mod_cast h1
      _ = (((a / m : ℕ) : ℚ) + 1) * (m : ℚ) := by push_cast; ring

/-- C3: whenever the decoded image has longer side above 640, the dimensions
computed for the image handed to detection on the `/detect/stream` path have
longer side at most 640, and each one equals the original dimension scaled
by the common factor `640 / longer_dimension` up to the sub-one error of
integer truncation, so the width-to-height ratio is the original's within
rounding. -/
theorem C3_stream_resize_bounds (w h : Nat) (hbig : 640 < max w h) :
    max (resized_dims w h).1 (resized_dims w h).2 ≤ 640 ∧
    (((resized_dims w h).1 : ℕ) : ℚ) ≤ (w : ℚ) * (640 / ((max w h : ℕ) : ℚ)) ∧
    (w : ℚ) * (640 / ((max w h : ℕ) : ℚ)) - 1 < (((resized_dims w h).1 : ℕ) : ℚ) ∧
    (((resized_dims w h).2 : ℕ) : ℚ) ≤ (h : ℚ) * (640 / ((max w h : ℕ) : ℚ)) ∧
    (h : ℚ) * (640 / ((max w h : ℕ) : ℚ)) - 1 < (((resized_dims w h).2 : ℕ) : ℚ) := by
  have hm : 0 < max w h := lt_trans (by norm_num) hbig
  have hrw : resized_dims w h = ((w * 640) / max w h, (h * 640) / max w h) := by
    rw [resized_dims, if_pos (by simpa [max_size] using hbig), new_size, max_size]
  have hwq : (w : ℚ) * (640 / ((max w h : ℕ) : ℚ)) =
      ((w * 640 : ℕ) : ℚ) / ((max w h : ℕ) : ℚ) := by push_cast; ring
  have hhq : (h : ℚ) * (640 / ((max w h : ℕ) : ℚ)) =
      ((h * 640 : ℕ) : ℚ) / ((max w h : ℕ) : ℚ) := by push_cast; ring
  have hbw := nat_div_rat_bounds (w * 640) (max w h) hm
  have hbh := nat_div_rat_bounds (h * 640) (max w h) hm
  have hcap : ∀ d : Nat, d ≤ max w h → (d * 640) / max w h ≤ 640 := by
    intro d hd
    calc (d * 640) / max w h ≤ (max w h * 640) / max w h :=
          Nat.div_le_div_right (Nat.mul_le_mul_right _ hd)
      _ = 640 := Nat.mul_div_cancel_left _ hm
  rw [hrw]
  refine ⟨?_, ?_, ?_, ?_, ?_⟩
  · exact max_le (hcap w (le_max_left w h)) (hcap h (le_max_right w h))
  · rw [hwq]; exact hbw.1
  · rw [hwq]; exact hbw.2
  · rw [hhq]; exact hbh.1
  · rw [hhq]; exact hbh.2

/-- C3 witness: the bound evaluated on a 1281x1000 image, whose resized
dimensions are 640x499. -/
theorem C3_witness :
    640 < max 1281 1000 ∧
    max (resized_dims 1281 1000).1 (resized_dims 1281 1000).2 ≤ 640 :=
  ⟨by decide, (C3_stream_resize_bounds 1281 1000 (by decide)).1⟩

/-! ### Claim C4 -/

/-- server.py lines 59-60: with the model unavailable (`not MODEL_AVAILABLE
or model is None`) the adapter returns the empty list. -/
theorem detect_objects_unavailable (ctx : Ctx) (image : Image)
    (h : ctx.MODEL_AVAILABLE = false ∨ ctx.model = none) :
    detect_objects ctx image = [] := by
  cases hA : ctx.MODEL_AVAILABLE with
  | false =>
    rw [detect_objects, hA]
  | true =>
    cases hM : ctx.model with
    | none => rw [detect_objects, hA, hM]
    | some m =>
      rcases h with h | h
      · rw [hA] at h; cases h
      · rw [hM] at h; cases h

/-- server.py lines 80-82: an exception raised by the model call is caught
and the adapter returns the empty list. -/
theorem detect_objects_run_error (ctx : Ctx) (image : Image) (m : YOLO) (e : String)
    (hA : ctx.MODEL_AVAILABLE = true) (hM : ctx.model = some m)
    (hrun : ctx.run m image 0.25 0.45 = .error e) :
    detect_objects ctx image = [] := by
  simp only [detect_objects, hA, hM]
  rw [hrun]

/-- C4: the Detector Adapter returns `[]` when the model is unavailable
(library absent or load failed, i.e. `MODEL_AVAILABLE` false or `model`
`None`), and returns `[]` instead of propagating when the model call raises;
`detect_objects` is embedded as a total function, reflecting that its
`try/except` lets no exception escape. -/
theorem C4_detector_fallback (ctx : Ctx) (image : Image) :
    (ctx.MODEL_AVAILABLE = false → detect_objects ctx image = []) ∧
    (ctx.model = none → detect_objects ctx image = []) ∧
    (∀ m e, ctx.model = some m → ctx.run m image 0.25 0.45 = .error e →
      detect_objects ctx image = []) := by
  refine ⟨fun h => detect_objects_unavailable ctx image (.inl h),
          fun h => detect_objects_unavailable ctx image (.inr h),
          fun m e hM hrun => ?_⟩
  cases hA : ctx.MODEL_AVAILABLE with
  | false => exact detect_objects_unavailable ctx image (.inl hA)
  | true => exact detect_objects_run_error ctx image m e hA hM hrun

/-- C4 witness: the fallback evaluated in a no-model context and in a
context whose inference call raises. -/
theorem C4_witness :
    noModelCtx.MODEL_AVAILABLE = false ∧
    detect_objects noModelCtx ⟨10, 20⟩ = [] ∧
    errCtx.model = some ⟨"yolov8n.pt"⟩ ∧
    errCtx.run ⟨"yolov8n.pt"⟩ ⟨10, 20⟩ 0.25 0.45 = .error "inference failed" ∧
    detect_objects errCtx ⟨10, 20⟩ = [] :=
  ⟨rfl, (C4_detector_fallback noModelCtx ⟨10, 20⟩).1 rfl, rfl, rfl,
   (C4_detector_fallback errCtx ⟨10, 20⟩).2.2 ⟨"yolov8n.pt"⟩ "inference failed" rfl rfl⟩

/-! ### Claims C5, C6, C7 -/

/-- A present `image` field rules out the empty dict. -/
theorem lookup_some_not_empty (l : List (String × JVal)) (v : JVal)
    (hv : l.lookup "image" = some v) : l.isEmpty = false := by
  cases l with
  | nil => simp at hv
  | cons a as => rfl

/-- server.py lines 104-119: with an `image` field that decodes, `/detect`
answers 200 with `success`, the detections and their count. -/
theorem detect_ok (ctx : Ctx) (l : List (String × JVal)) (v : JVal) (image : Image)
    (hv : l.lookup "image" = some v) (himg : decode_jval ctx v = some image) :
    detect ctx (some l) =
      ⟨200, [("success", .jbool true),
             ("detections", .jdets (detect_objects ctx image)),
             ("count", .jnum (detect_objects ctx image).length)]⟩ := by
  simp [detect, lookup_some_not_empty l v hv, hv, himg]

/-- C5: a `/detect` request with a missing body or without an `image` key
(whatever other fields are present) gets 400 "No image data provided", and
one whose `image` value fails to decode gets 400 "Failed to decode image". -/
theorem C5_detect_bad_request (ctx : Ctx) (data : Option (List (String × JVal))) :
    ((data = none ∨ ∃ l, data = some l ∧ l.lookup "image" = none) →
      detect ctx data = errorResponse 400 "No image data provided") ∧
    (∀ l v, data = some l → l.lookup "image" = some v → decode_jval ctx v = none →
      detect ctx data = errorResponse 400 "Failed to decode image") := by
  constructor
  · rintro (rfl | ⟨l, rfl, hl⟩)
    · rfl
    · by_cases he : l.isEmpty
      · simp [detect, he]
      · simp [detect, he, hl]
  · rintro l v rfl hv hd
    simp [detect, lookup_some_not_empty l v hv, hv, hd]

/-- C5 witness: the three 400 cases evaluated: missing body, a body with
only unrelated fields, and an `image` value whose base64 decoding fails. -/
theorem C5_witness :
    detect okCtx none = errorResponse 400 "No image data provided" ∧
    detect okCtx (some [("foo", .jnum 1)]) = errorResponse 400 "No image data provided" ∧
    decode_jval badB64Ctx (.jstr "AAAA") = none ∧
    detect badB64Ctx (some [("image", .jstr "AAAA")]) =
      errorResponse 400 "Failed to decode image" :=
  ⟨(C5_detect_bad_request okCtx none).1 (.inl rfl),
   (C5_detect_bad_request okCtx (some [("foo", .jnum 1)])).1 (.inr ⟨_, rfl, by decide⟩),
   by decide,
   (C5_detect_bad_request badB64Ctx (some [("image", .jstr "AAAA")])).2
     [("image", .jstr "AAAA")] (.jstr "AAAA") rfl (by decide) (by decide)⟩

/-- C6: a `/detect` request whose `image` field decodes successfully gets a
200 whose body has `success: true`, the detections list, and a `count`
equal to that list's length. -/
theorem C6_detect_success (ctx : Ctx) (data : Option (List (String × JVal)))
    (l : List (String × JVal)) (v : JVal) (image : Image)
    (hdata : data = some l) (hv : l.lookup "image" = some v)
    (himg : decode_jval ctx v = some image) :
    detect ctx data =
      ⟨200, [("success", .jbool true),
             ("detections", .jdets (detect_objects ctx image)),
             ("count", .jnum (detect_objects ctx image).length)]⟩ := by
  subst hdata
  exact detect_ok ctx l v image hv himg

/-- C6 witness: a decodable image in a context whose model returns no
boxes. -/
theorem C6_witness :
    decode_jval okCtx (.jstr "AAAA") = some ⟨10, 20⟩ ∧
    detect okCtx (some [("image", .jstr "AAAA")]) =
      ⟨200, [("success", .jbool true),
             ("detections", .jdets (detect_objects okCtx ⟨10, 20⟩)),
             ("count", .jnum (detect_objects okCtx ⟨10, 20⟩).length)]⟩ :=
  ⟨by decide,
   C6_detect_success okCtx (some [("image", .jstr "AAAA")]) [("image", .jstr "AAAA")]
     (.jstr "AAAA") ⟨10, 20⟩ rfl (by decide) (by decide)⟩

/-- C7: with the model unavailable, `/detect` on a decodable image still
answers 200, with `detections: []` and `count: 0` — degraded mode is
reported as success. -/
theorem C7_degraded_success (ctx : Ctx) (data : Option (List (String × JVal)))
    (l : List (String × JVal)) (v : JVal) (image : Image)
    (hmodel : ctx.MODEL_AVAILABLE = false ∨ ctx.model = none)
    (hdata : data = some l) (hv : l.lookup "image" = some v)
    (himg : decode_jval ctx v = some image) :
    detect ctx data =
      ⟨200, [("success", .jbool true),
             ("detections", .jdets []),
             ("count", .jnum 0)]⟩ := by
  subst hdata
  rw [detect_ok ctx l v image hv himg, detect_objects_unavailable ctx image hmodel]
  decide

/-- C7 witness: degraded mode evaluated in the no-model context. -/
theorem C7_witness :
    noModelCtx.MODEL_AVAILABLE = false ∧
    decode_jval noModelCtx (.jstr "AAAA") = some ⟨10, 20⟩ ∧
    detect noModelCtx (some [("image", .jstr "AAAA")]) =
      ⟨200, [("success", .jbool true), ("detections", .jdets []), ("count", .jnum 0)]⟩ :=
  ⟨rfl, by decide,
   C7_degraded_success noModelCtx (some [("image", .jstr "AAAA")]) [("image", .jstr "AAAA")]
     (.jstr "AAAA") ⟨10, 20⟩ (.inl rfl) rfl (by decide) (by decide)⟩

/-! ### Claims C8, C9, C10 -/

/-- Inversion for the stream endpoint: a 200 can only come from the success
branch of server.py lines 154-158, so the request was a dict `l` and the
body is the three-field streaming response for some image handed to the
detector. -/
theorem detect_stream_status_200 (ctx : Ctx) (data : Option (List (String × JVal)))
    (h : (detect_stream ctx data).status = 200) :
    ∃ l image2, data = some l ∧
      detect_stream ctx data =
        ⟨200, [("detections", .jdets (detect_objects ctx image2)),
               ("count", .jnum (detect_objects ctx image2).length),
               ("timestamp", (l.lookup "timestamp").getD .null)]⟩ := by
  cases data with
  | none =>
    rw [detect_stream] at h
    exact absurd h (by decide)
  | some l =>
    by_cases he : l.isEmpty
    · have hs : detect_stream ctx (some l) = errorResponse 400 "No image data provided" := by
        simp [detect_stream, he]
      rw [hs] at h
      exact absurd h (by decide)
    · rcases hv : l.lookup "image" with _ | v
      · have hs : detect_stream ctx (some l) = errorResponse 400 "No image data provided" := by
          simp [detect_stream, he, hv]
        rw [hs] at h
        exact absurd h (by decide)
      · rcases hd : decode_jval ctx v with _ | image
        · have hs : detect_stream ctx (some l) = errorResponse 400 "Failed to decode image" := by
            simp [detect_stream, he, hv, hd]
          rw [hs] at h
          exact absurd h (by decide)
        · by_cases hbig : max image.width image.height > max_size
          · rcases hr : pil_resize (new_size image.width image.height) with e | image2
            · have hs : detect_stream ctx (some l) = errorResponse 500 e := by
                simp [detect_stream, he, hv, hd, hbig, hr]
              rw [hs] at h
              simp [errorResponse] at h
            · refine ⟨l, image2, rfl, ?_⟩
              simp [detect_stream, he, hv, hd, hbig, hr]
          · refine ⟨l, image, rfl, ?_⟩
            simp [detect_stream, he, hv, hd, hbig]

/-- C8: every 200 from `/detect/stream` carries no `success` field, and its
`timestamp` field echoes the request's `timestamp` value when one was
supplied and is `null` when it was omitted. -/
theorem C8_stream_timestamp_echo (ctx : Ctx) (data : Option (List (String × JVal)))
    (h : (detect_stream ctx data).status = 200) :
    (detect_stream ctx data).body.lookup "success" = none ∧
    ∀ l, data = some l →
      ((∀ v, l.lookup "timestamp" = some v →
          (detect_stream ctx data).body.lookup "timestamp" = some v) ∧
       (l.lookup "timestamp" = none →
          (detect_stream ctx data).body.lookup "timestamp" = some .null)) := by
  obtain ⟨l, image2, rfl, hresp⟩ := detect_stream_status_200 ctx data h
  rw [hresp]
  constructor
  · simp [List.lookup]
  · intro l2 h2
    injection h2 with h3
    subst h3
    constructor
    · intro v hv
      simp [List.lookup, hv]
    · intro hv
      simp [List.lookup, hv]

/-- C8 witness: a request with `timestamp: 12345` gets it echoed, one
without gets `null`; neither response has a `success` field. -/
theorem C8_witness :
    (detect_stream okCtx (some [("image", .jstr "AAAA"), ("timestamp", .jnum 12345)])).status
        = 200 ∧
    (detect_stream okCtx (some [("image", .jstr "AAAA"), ("timestamp", .jnum 12345)])).body.lookup
        "success" = none ∧
    (detect_stream okCtx (some [("image", .jstr "AAAA"), ("timestamp", .jnum 12345)])).body.lookup
        "timestamp" = some (.jnum 12345) ∧
    (detect_stream okCtx (some [("image", .jstr "AAAA")])).body.lookup
        "timestamp" = some .null :=
  ⟨by decide,
   (C8_stream_timestamp_echo okCtx
      (some [("image", .jstr "AAAA"), ("timestamp", .jnum 12345)]) (by decide)).1,
   ((C8_stream_timestamp_echo okCtx
      (some [("image", .jstr "AAAA"), ("timestamp", .jnum 12345)]) (by decide)).2
      [("image", .jstr "AAAA"), ("timestamp", .jnum 12345)] rfl).1 (.jnum 12345) (by decide),
   ((C8_stream_timestamp_echo okCtx
      (some [("image", .jstr "AAAA")]) (by decide)).2
      [("image", .jstr "AAAA")] rfl).2 (by decide)⟩

/-- C9: after any startup outcome, `GET /health` answers 200 with
`status: "healthy"` and `model_loaded` true exactly when the import of
ultralytics succeeded and the `YOLO(..)` load returned a model. -/
theorem C9_health_always_200 (importOk : Bool) (load : Except String YOLO) :
    health (startup importOk load).1 (startup importOk load).2 =
      ⟨200, [("status", .jstr "healthy"),
             ("model_loaded", .jbool (importOk && load.toOption.isSome))]⟩ ∧
    ((importOk && load.toOption.isSome) = true ↔
      (importOk = true ∧ ∃ m, load = Except.ok m)) := by
  cases importOk <;> cases load <;> simp [health, startup, Except.toOption]

/-- C10: the decoded dimensions 1x1000 have longer side above 640, the
stream path computes `int(1 * 640/1000) = 0` for the new width, the resize
call on that zero dimension raises, and `/detect/stream` answers 500 even
though the image itself decoded successfully. -/
theorem C10_zero_dimension_500 :
    decode_jval thinCtx (.jstr "AAAA") = some ⟨1, 1000⟩ ∧
    640 < max 1 1000 ∧
    (new_size 1 1000).1 = 0 ∧
    detect_stream thinCtx (some [("image", .jstr "AAAA")]) =
      errorResponse 500 "height and width must be > 0" := by
  decide
